import Mathlib

/-
  Verification development for the portfolio-monitoring engine
  (src/quant_engine.py and its caller src/app.py).

  Shallow embedding conventions:
  - Python strings are Lean String; Python float values are ℚ
    (threshold comparisons are exact on decimal literals).
  - Pandas cells are the inductive Cell: Cell.na models a missing
    value (NaN); Cell.s models a present value in its textual form.
  - Python dicts are association lists with first-match lookup.
  - Fallible external-library calls (yfinance download, pandas_ta
    indicators) are oracle parameters returning Option or Except;
    the indicator math itself is external to the repository.
-/

namespace QuantSys

-- Python substring test: sub in hay (empty sub is contained in anything).
def containsSub (sub : List Char) : List Char → Bool
  | [] => sub.isEmpty
  | c :: rest => sub.isPrefixOf (c :: rest) || containsSub sub rest

def strContains (hay sub : String) : Bool :=
  containsSub sub.toList hay.toList

-- str.upper and str.lower, character-wise as in Python (ASCII letters
-- change case, everything else is untouched). Implemented over the
-- character list so that terms reduce definitionally.
def pyUpper (s : String) : String :=
  String.mk (s.toList.map Char.toUpper)

def pyLower (s : String) : String :=
  String.mk (s.toList.map Char.toLower)

def isSpaceChar (c : Char) : Bool :=
  c = ' ' || c = '\t' || c = '\n' || c = '\r'

-- str.strip: whitespace removed from both ends.
def pyStrip (s : String) : String :=
  String.mk (((s.toList.dropWhile isSpaceChar).reverse.dropWhile isSpaceChar).reverse)

-- str.replace of a period by a hyphen, as in symbol_upper.replace in the mapper.
def replaceDot (s : String) : String :=
  String.mk (s.toList.map (fun c => if c = '.' then '-' else c))

-- First-match association lookup (Python dict / pandas row access).
def assocGet {α : Type} : List (String × α) → String → Option α
  | [], _ => none
  | (k, v) :: t, key => if k = key then some v else assocGet t key

-- Python dict assignment d[k] = v: overwrite in place, else append.
def dict_set (m : List (String × String)) (k v : String) : List (String × String) :=
  if (assocGet m k).isSome then
    m.map (fun kv => if kv.1 = k then (k, v) else kv)
  else m ++ [(k, v)]

-- A pandas cell: na models NaN / missing, s a present value in textual form.
inductive Cell where
  | na : Cell
  | s : String → Cell
deriving DecidableEq

def strOfCell : Cell → String
  | Cell.na => "nan"
  | Cell.s v => v

-- pd.isna on a cell.
def cellIsNa : Cell → Bool
  | Cell.na => true
  | Cell.s _ => false

-- row.get(key, default): default when the column is absent.
def rowGetD (r : List (String × Cell)) (k : String) (d : Cell) : Cell :=
  match assocGet r k with
  | some c => c
  | none => d

-- Digits-only parser used by pyFloat.
def parseDigits (cs : List Char) : Option Nat :=
  if cs.isEmpty then none
  else cs.foldl (fun acc c =>
    match acc with
    | some a => if c.isDigit then some (a * 10 + (c.toNat - 48)) else none
    | none => none) (some 0)

-- Split a character list on a separator character.
def splitOnChar (sep : Char) : List Char → List (List Char)
  | [] => [[]]
  | c :: rest =>
    let r := splitOnChar sep rest
    if c = sep then [] :: r
    else
      match r with
      | [] => [[c]]
      | h :: t => (c :: h) :: t

-- Model of the Python float constructor on a string: sign, integer part,
-- optional fractional part. Scientific notation is not modelled; the one
-- use site discards the value.
def pyFloat (s0 : String) : Option ℚ :=
  let cs := (pyStrip s0).toList
  let signed : Bool → ℚ → ℚ := fun neg q => if neg then -q else q
  let core : Bool → List Char → Option ℚ := fun neg rest =>
    match splitOnChar '.' rest with
    | [ip] => (parseDigits ip).map (fun n => signed neg (n : ℚ))
    | [ip, fp] =>
      match parseDigits ip, parseDigits fp with
      | some i, some f =>
        some (signed neg ((i : ℚ) + (f : ℚ) / ((10 : ℚ) ^ fp.length)))
      | _, _ => none
    | _ => none
  match cs with
  | '-' :: rest => core true rest
  | '+' :: rest => core false rest
  | rest => core false rest

-- =====================================================================
-- Symbol mapper: source method _map_symbol (leading underscore omitted).
-- =====================================================================

def crypto_list : List String := ["BTC", "ETH", "SOL", "DOGE", "ADA"]

def map_symbol (symbol exchange name currency : String) : String :=
  let symbol_upper := pyUpper symbol
  if symbol_upper = "GOLD" ∧ ¬ (strContains (pyUpper name) "BARRICK" = true) then "GC=F"
  else if strContains symbol_upper "." = true ∧
          (strContains symbol_upper "TO" = true ∨ strContains symbol_upper "NE" = true) then
    symbol_upper
  else if pyUpper currency = "CAD" then
    if strContains (pyUpper name) "CDR" = true ∨ strContains exchange "NEO" = true then
      replaceDot symbol_upper ++ ".NE"
    else replaceDot symbol_upper ++ ".TO"
  else if (exchange = "" ∨ pyLower exchange = "nan") ∧ symbol_upper ∈ crypto_list then
    symbol_upper ++ "-USD"
  else symbol_upper

-- =====================================================================
-- Portfolio loader: source method load_portfolio.
-- =====================================================================

-- A parsed CSV frame: column labels plus rows keyed by column label.
structure CsvDf where
  columns : List String
  rows : List (List (String × Cell))
deriving DecidableEq

-- df.columns = [c.strip() for c in df.columns]: renaming the columns
-- renames the keys used for row access.
def strip_columns (df : CsvDf) : CsvDf :=
  { columns := df.columns.map pyStrip,
    rows := df.rows.map (fun r => r.map (fun kv => (pyStrip kv.1, kv.2))) }

-- float(row.get(Quantity, 0)) with the ValueError fallback to 0.0 of the
-- source; a NaN cell yields NaN, approximated by 0 here: the value is
-- never used afterwards by the source.
def qty_of_row (r : List (String × Cell)) : ℚ :=
  match assocGet r "Quantity" with
  | none => 0
  | some Cell.na => 0
  | some (Cell.s v) => (pyFloat v).getD 0

-- The loop body of load_portfolio for one row: none models continue,
-- some gives the dict literal appended to portfolio_list.
def process_row (r : List (String × Cell)) : Option (List (String × String)) :=
  let raw_symbol := rowGetD r "Symbol" Cell.na
  if cellIsNa raw_symbol = true then none
  else
    let symbol := pyStrip (strOfCell raw_symbol)
    if symbol = "" ∨ pyLower symbol = "nan" then none
    else
      let name := strOfCell (rowGetD r "Name" (Cell.s "Unknown"))
      let exchange := strOfCell (rowGetD r "Exchange" (Cell.s ""))
      let currency := strOfCell (rowGetD r "Currency" (Cell.s ""))
      let _qty : ℚ := qty_of_row r
      let yf_ticker := map_symbol symbol exchange name currency
      if strContains (pyLower yf_ticker) "nan" = true then none
      else some [("Symbol", symbol), ("YF_Ticker", yf_ticker), ("Name", name)]

-- load_portfolio. The Except input models pd.read_csv: error is a raised
-- parse exception (caught by the source and answered with the failure
-- message). Result: (success flag, message) and the new portfolio table,
-- none meaning self.portfolio was left untouched (early failure return).
-- The source message quotes the word Symbol; the quote marks are elided.
def load_portfolio (input : Except String CsvDf) :
    (Bool × String) × Option (List (List (String × String))) :=
  match input with
  | Except.error e => ((false, "❌ 解析失败: " ++ e), none)
  | Except.ok df0 =>
    let df := strip_columns df0
    if "Symbol" ∈ df.columns then
      let pf := df.rows.filterMap process_row
      ((true, "✅ 已加载 " ++ toString pf.length ++ " 个持仓"), some pf)
    else ((false, "CSV 缺少 Symbol 列"), none)

-- =====================================================================
-- Strategy lock store: get_active_strategy.
-- =====================================================================

def get_active_strategy (strategy_map : List (String × String))
    (ticker default_strategy : String) : String :=
  (assocGet strategy_map ticker).getD default_strategy

-- =====================================================================
-- Chart data and the compatibility methods calculate_strategy and
-- get_signal_status. A data frame is a list of named columns over an
-- abstract series type S; the technical-analysis library is the oracle
-- TaLibChart (its math is external to the repository).
-- =====================================================================

structure TaLibChart (S : Type) where
  sma : S → Nat → S
  -- ta.bbands may return None, which the source checks explicitly.
  bbands : S → Nat → ℚ → Option (List (String × S))

-- get_chart_data. The download argument yields none both when yf.download
-- raises (caught, returns None) and when the frame is empty (explicit
-- early None return): the source maps both to the same None result.
-- A KeyError on the Close column inside the try is likewise caught.
def get_chart_data {S : Type} (tl : TaLibChart S)
    (download : String → Option (List (String × S))) (ticker : String) :
    Option (List (String × S)) :=
  match download ticker with
  | none => none
  | some df =>
    match assocGet df "Close" with
    | none => none
    | some close =>
      let df1 := df ++ [("SMA50", tl.sma close 50), ("SMA200", tl.sma close 200)]
      match tl.bbands close 20 2 with
      | none => some df1
      | some bb => some (df1 ++ bb)

-- calculate_strategy: the compatibility stub returns get_chart_data and
-- ignores both the preset name and the parameter set.
def calculate_strategy {S : Type} (tl : TaLibChart S)
    (download : String → Option (List (String × S)))
    (ticker strategy_name : String) (params : List (String × ℚ)) :
    Option (List (String × S)) :=
  get_chart_data tl download ticker

-- get_signal_status: the compatibility stub answers the constant string.
def get_signal_status {S : Type} (df : Option (List (String × S))) : String :=
  "Pro Mode"

-- =====================================================================
-- Macro cache: the dictionary written by fetch_macro_context.
-- none models the initial empty dict.
-- =====================================================================

structure MacroCacheData where
  market_trend : String
  fear_level : String
  vxn : ℚ
  tnx : ℚ
  qqq_ret_20 : ℚ
deriving DecidableEq

-- =====================================================================
-- Per-stock diagnosis: diagnose_stock_pro.
-- =====================================================================

-- The downloaded frame as seen by the guarded region of the source: only
-- its bar count is inspected there (emptiness is bar count zero); the
-- series content feeds the indicator valuation below.
structure FetchedDf where
  len : Nat
deriving DecidableEq

-- Outcomes of the indicator expressions of the source, in source order.
-- Each field models the full expression including column access and the
-- trailing iloc extraction; Except.error models a raised exception
-- (for example an iloc call on a None returned by pandas_ta). The field
-- sma200 models the has_sma200 guard: none when ta.sma returned None or
-- the last value is NaN, some v otherwise.
structure Indicators where
  curr_price : Except Unit ℚ
  prev_price : Except Unit ℚ
  sma20 : Except Unit ℚ
  sma50 : Except Unit ℚ
  sma200 : Except Unit (Option ℚ)
  rsi : Except Unit ℚ
  macd_hist : Except Unit ℚ
  prev_macd_hist : Except Unit ℚ
  high_20 : Except Unit ℚ
  low_20 : Except Unit ℚ
  atr : Except Unit ℚ
  ret_20 : Except Unit ℚ
  vol_ma : Except Unit ℚ
  vol_last : Except Unit ℚ
  bb_lower : Except Unit ℚ

structure DiagResult where
  id : Nat
  state : String
  tier : String
  reason : String
  action : String
deriving DecidableEq

-- _pack_result (leading underscore omitted).
def pack_result (id : Nat) (state tier reason action : String) : DiagResult :=
  { id := id, state := state, tier := tier, reason := reason, action := action }

-- Exact rational rendering standing in for Python decimal formatting in
-- reason strings (presentation only, no claim inspects these texts).
def ratStr (q : ℚ) : String :=
  toString q.num ++ "/" ++ toString q.den

-- The decision tree of diagnose_stock_pro (first true branch wins).
def diag_tree (day_chg : ℚ) (has_sma200 : Bool)
    (sma200 curr_price prev_price sma50 rsi macd_hist prev_macd_hist : ℚ)
    (is_breakout is_breakdown : Bool)
    (bias_50 atr rs_ratio_val vol_ratio_val bb_lower : ℚ)
    (macro_fear : String) : DiagResult :=
  if day_chg < -9 then
    pack_result 10 "黑天鹅/重大事件冲击" "Tier 1"
      ("单日暴跌 " ++ ratStr day_chg ++ "%，恐慌抛售。") "🔴 暂停操作"
  else if has_sma200 = true ∧ prev_price > sma200 ∧ curr_price < sma200 ∧
          vol_ratio_val > 1.5 then
    pack_result 6 "跌破关键指标/趋势反转" "Tier 1"
      "放量跌破牛熊分界线(SMA200)。" "✂️ 立即卖出"
  else if macro_fear = "High" ∧ atr / curr_price > 0.05 then
    pack_result 9 "高波动风险/系统性恐慌" "Tier 1"
      "大盘恐慌 (VXN高) 且个股波动率极高。" "👀 观望/清仓"
  else if vol_ratio_val > 2.5 ∧ day_chg < 0 then
    pack_result 8 "成交量异常 (出货)" "Tier 2"
      "巨量下跌，资金出逃。" "⚠️ 减仓/警告"
  else if is_breakout = true ∧ rs_ratio_val > 0.05 ∧ curr_price > sma50 then
    pack_result 1 "趋势强势上涨 (RS增强)" "Tier 2"
      ("突破新高，且跑赢大盘 " ++ ratStr (rs_ratio_val * 100) ++ "%。") "💪 积极持有"
  else if is_breakdown = true ∧ curr_price < sma50 then
    pack_result 6 "跌破关键结构" "Tier 2"
      "跌破20日区间下沿。" "✂️ 减仓/做空"
  else if bias_50 > 15 then
    pack_result 7 "上涨过度/泡沫信号" "Tier 3"
      ("偏离50日线 " ++ ratStr bias_50 ++ "%，乖离过大。") "💰 分批止盈"
  else if curr_price < bb_lower ∧ rsi < 25 then
    pack_result 12 "超卖情绪极端" "Tier 3"
      "跌破布林下轨且RSI超卖。" "🛒 左侧博反弹"
  else if has_sma200 = true ∧ curr_price > sma200 ∧ rsi > 30 ∧
          macd_hist > prev_macd_hist ∧ macd_hist < 0 then
    pack_result 4 "深度回调完成/企稳" "Tier 3"
      "年线支撑有效，动能修复。" "➕ 尝试买入"
  else if macd_hist < 0 ∧ prev_macd_hist > 0 then
    pack_result 13 "动能转弱 (MACD死叉)" "Tier 3"
      "上涨动能耗尽，MACD高位死叉。" "👀 观望/减仓"
  else if curr_price > sma50 ∧ day_chg < 0 then
    pack_result 2 "短暂波动但趋势未变" "Tier 4"
      "上升趋势中的正常回撤。" "🧘‍♂️ 持有不动"
  else if |day_chg| < 1 ∧ vol_ratio_val < 0.8 then
    pack_result 11 "盘整区间 (缩量)" "Tier 4"
      "波动率收缩，方向不明。" "⏳ 等待方向"
  else
    pack_result 14 "市场风格切换期" "Tier 4" "无明显信号，跟随大盘。" "👀 观望"

-- diagnose_stock_pro. Only the data fetch and the length checks sit in a
-- try block in the source; the indicator computations below them do not.
-- Accordingly a fetch error yields ok none (the caught path returning
-- None), while an error from an indicator expression propagates as an
-- error of the whole evaluation. ℚ division by zero is zero where Python
-- would produce an inf or raise; no claim depends on those values.
def diagnose_stock_pro (fetch : Except Unit FetchedDf) (ind : Indicators)
    (macro_cache : Option MacroCacheData) : Except Unit (Option DiagResult) :=
  match fetch with
  | Except.error _ => Except.ok none
  | Except.ok df =>
    if df.len = 0 then Except.ok none
    else if df.len < 60 then
      Except.ok (some (pack_result 15 "数据不足 (新股)" "Tier 4"
        ("上市时间太短 (" ++ toString df.len ++ "天)。") "👀 观望"))
    else do
      let curr_price ← ind.curr_price
      let prev_price ← ind.prev_price
      let day_chg := (curr_price - prev_price) / prev_price * 100
      let _sma20 ← ind.sma20
      let sma50 ← ind.sma50
      let s200 ← ind.sma200
      let has_sma200 := s200.isSome
      let sma200 := s200.getD 0
      let rsi ← ind.rsi
      let macd_hist ← ind.macd_hist
      let prev_macd_hist ← ind.prev_macd_hist
      let high_20 ← ind.high_20
      let low_20 ← ind.low_20
      let is_breakout := decide (curr_price > high_20)
      let is_breakdown := decide (curr_price < low_20)
      let bias_50 := (curr_price - sma50) / sma50 * 100
      let atr ← ind.atr
      let qqq_ret := match macro_cache with
        | some m => m.qqq_ret_20
        | none => 0
      let ret_20 ← ind.ret_20
      let rs_ratio_val := ret_20 - qqq_ret
      let vol_ma ← ind.vol_ma
      let vol_ratio_val ← if vol_ma > 0 then
          (do
            let v ← ind.vol_last
            pure (v / vol_ma))
        else pure (1 : ℚ)
      let bb_lower ← ind.bb_lower
      let macro_fear := match macro_cache with
        | some m => m.fear_level
        | none => "Normal"
      pure (some (diag_tree day_chg has_sma200 sma200 curr_price prev_price
        sma50 rsi macd_hist prev_macd_hist is_breakout is_breakdown bias_50
        atr rs_ratio_val vol_ratio_val bb_lower macro_fear))

-- =====================================================================
-- Market-wide analysis: analyze_nasdaq_pro.
-- =====================================================================

-- The values produced by the data fetch and indicator section of
-- analyze_nasdaq_pro (all of it inside the try block of the source, so
-- any exception there is caught and the method returns None). The fields
-- carry the already-defaulted values: curr_vxn defaults to 20 and
-- tnx_val to 0 when the respective series is empty, vxn_ma20 to curr_vxn
-- when ta.sma returned None.
structure NasdaqInputs where
  current_price : ℚ
  sma20 : ℚ
  sma50 : ℚ
  sma200 : ℚ
  adx : ℚ
  macd_hist : ℚ
  curr_vxn : ℚ
  vxn_ma20 : ℚ
  ath : ℚ
  q_pct : ℚ
  qe_pct : ℚ
  mfi : ℚ
  tnx_val : ℚ
  rsi : ℚ
deriving DecidableEq

structure NasdaqResult where
  state : String
  score : Int
  trend_dir : String
  trend_str : String
  volatility : String
  breadth : String
  risk_short : Int
  risk_med : Int
  signals : List String
  metrics : List (String × ℚ)
deriving DecidableEq

-- The trend strength assignment: an if followed by an elif, so the
-- second test runs only when the first failed.
def nasdaq_trend_str (adx : ℚ) : String :=
  if adx > 25 then "强"
  else if adx > 40 then "极强"
  else "弱"

-- The nine-state market classification.
def nasdaq_state (current_price sma20 sma50 sma200 curr_vxn bias_200 mfi adx : ℚ) :
    String :=
  if current_price < sma200 ∧ current_price < sma50 then
    if curr_vxn > 35 then "Panic" else "Bear Market"
  else if current_price > sma200 then
    if current_price > sma50 ∧ current_price > sma20 then
      if bias_200 > 20 ∧ mfi > 80 then "Overheated"
      else if adx > 25 then "Strong Bull"
      else "Healthy Uptrend"
    else if current_price < sma20 then
      if current_price > sma50 then "Shallow Pullback" else "Deep Pullback"
    else if current_price < sma50 ∧ current_price > sma200 then "Repairing"
    else "Choppy"
  else "Choppy"

-- The pure core of analyze_nasdaq_pro from the derived quantities through
-- the returned record.
def analyze_nasdaq_core (i : NasdaqInputs) : NasdaqResult :=
  let bias_200 := (i.current_price - i.sma200) / i.sma200 * 100
  let vxn_trend := if i.curr_vxn > i.vxn_ma20 * 1.05 then "扩张" else "正常"
  let dd_current := (i.current_price - i.ath) / i.ath * 100
  let breadth_health := if i.qe_pct ≥ i.q_pct - 0.02 then "健康" else "恶化 (仅巨头拉升)"
  let state := nasdaq_state i.current_price i.sma20 i.sma50 i.sma200
    i.curr_vxn bias_200 i.mfi i.adx
  let hs1 : Int := if i.current_price > i.sma200 then 50 + 20 else 50
  let hs2 : Int := if i.current_price > i.sma50 then hs1 + 15 else hs1
  let hs3 : Int := if i.current_price > i.sma20 then hs2 + 10 else hs2
  let hs4 : Int := if i.macd_hist > 0 then hs3 + 5 else hs3
  let hs5 : Int := if i.mfi > 50 then hs4 + 5 else hs4
  let hs6 : Int := if breadth_health = "健康" then hs5 + 10 else hs5
  let hs7 : Int := if i.curr_vxn < 20 then hs6 + 10
    else if i.curr_vxn > 30 then hs6 - 15 else hs6
  let hs8 : Int := if bias_200 > 20 then hs7 - 10 else hs7
  let health_score : Int := max 0 (min 100 hs8)
  let trend_dir := if i.current_price > i.sma50 then "上升"
    else if i.current_price < i.sma50 then "下降" else "震荡"
  let trend_str := nasdaq_trend_str i.adx
  let psd1 : Int := if i.rsi > 70 then 20 + 30 else 20
  let psd2 : Int := if i.curr_vxn > 25 then psd1 + 20 else psd1
  let pmc1 : Int := if bias_200 > 20 then 10 + 20 else 10
  let pmc2 : Int := if breadth_health ≠ "健康" then pmc1 + 15 else pmc1
  let pmc3 : Int := if i.tnx_val > 4.5 then pmc2 + 15 else pmc2
  let pmc4 : Int := if i.current_price < i.sma50 then pmc3 + 10 else pmc3
  let sg1 : List String := if i.curr_vxn > 25 then
    ["⚠️ VXN 高位 (" ++ ratStr i.curr_vxn ++ ")，恐慌情绪蔓延"] else []
  let sg2 := if breadth_health ≠ "健康" then sg1 ++ ["⚠️ 市场宽度恶化，仅靠巨头支撑"] else sg1
  let sg3 := if bias_200 > 20 then sg2 ++ ["⚠️ 年线乖离过大，长期回调风险高"] else sg2
  let sg4 := if i.tnx_val > 4.2 then sg3 ++ ["⚠️ 美债收益率上行，压制估值"] else sg3
  let sg5 := if sg4 = [] ∧ health_score > 70 then sg4 ++ ["✅ 结构健康，适合持仓"] else sg4
  let signals := if state = "Repairing" then sg5 ++ ["🛠️ 震荡修复期，多空博弈"] else sg5
  { state := state,
    score := health_score,
    trend_dir := trend_dir,
    trend_str := trend_str,
    volatility := vxn_trend,
    breadth := breadth_health,
    risk_short := min psd2 99,
    risk_med := min pmc4 99,
    signals := signals,
    metrics := [("Price", i.current_price), ("SMA50", i.sma50),
      ("SMA200", i.sma200), ("RSI", i.rsi), ("ADX", i.adx),
      ("VXN", i.curr_vxn), ("TNX", i.tnx_val), ("DD", dd_current)] }

-- analyze_nasdaq_pro: the whole body is inside a try whose except prints
-- and returns None, so a fetch or indicator error yields none.
def analyze_nasdaq_pro (fetch : Except Unit NasdaqInputs) : Option NasdaqResult :=
  match fetch with
  | Except.error _ => none
  | Except.ok i => some (analyze_nasdaq_core i)

-- =====================================================================
-- The engine as a state machine (class QuantEngine and its mutable
-- attributes), for the market_data invariant. The parameter S is the
-- abstract series type of cached frames.
-- =====================================================================

structure QuantEngineState (S : Type) where
  portfolio : List (List (String × String))
  market_data : List (String × List (String × S))
  config_file : String
  strategy_map : List (String × String)
  macro_cache : Option MacroCacheData

-- __init__: empty portfolio, empty market data, strategy map read from
-- the config file (a corrupt or missing file degrades to the empty map;
-- the parsed content is the config argument), empty macro cache.
def engine_init (S : Type) (config : List (String × String)) : QuantEngineState S :=
  { portfolio := [],
    market_data := [],
    config_file := "strategy_config.json",
    strategy_map := config,
    macro_cache := none }

-- One constructor per public method of the class. Constructor arguments
-- carry the external inputs each call consumes (parsed file, fetched
-- data, oracle outcomes); methods that only read state or only perform
-- output carry what they would be given.
inductive EngineOp (S : Type) where
  | load_portfolio_op (input : Except String CsvDf)
  | fetch_macro_context_op (fetched : Option MacroCacheData)
  | analyze_nasdaq_pro_op (fetched : Except Unit NasdaqInputs)
  | diagnose_stock_pro_op (ticker : String) (fetch : Except Unit FetchedDf)
      (ind : Indicators)
  | get_chart_data_op (tl : TaLibChart S)
      (download : String → Option (List (String × S))) (ticker : String)
  | calculate_strategy_op (tl : TaLibChart S)
      (download : String → Option (List (String × S)))
      (ticker strategy_name : String) (params : List (String × ℚ))
  | get_signal_status_op (df : Option (List (String × S)))
  | load_strategy_config_op
  | save_strategy_config_op (ticker strategy : String)
  | get_active_strategy_op (ticker default_strategy : String)
  | map_symbol_op (symbol exchange name currency : String)
  | send_telegram_message_op (message : String)

-- The state effect of each method call. load_portfolio replaces the
-- portfolio only on the paths that reach the assignment (the failure
-- returns leave it untouched); fetch_macro_context writes macro_cache
-- only on success; save_strategy_config updates the strategy map (and
-- rewrites the config file, an external effect); every other method
-- reads state without writing it.
def engine_step {S : Type} (st : QuantEngineState S) : EngineOp S → QuantEngineState S
  | EngineOp.load_portfolio_op input =>
    match (load_portfolio input).2 with
    | some pf => { st with portfolio := pf }
    | none => st
  | EngineOp.fetch_macro_context_op fetched =>
    match fetched with
    | some m => { st with macro_cache := some m }
    | none => st
  | EngineOp.save_strategy_config_op t s =>
    { st with strategy_map := dict_set st.strategy_map t s }
  | _ => st

def engine_run (S : Type) (config : List (String × String))
    (ops : List (EngineOp S)) : QuantEngineState S :=
  ops.foldl engine_step (engine_init S config)

-- pandas unique: first occurrences in order.
def uniqueFirst (l : List String) : List String :=
  l.foldl (fun acc x => if x ∈ acc then acc else acc ++ [x]) []

-- The YF_Ticker column of the portfolio table.
def yf_ticker_column (pf : List (List (String × String))) : List String :=
  pf.filterMap (fun r => assocGet r "YF_Ticker")

-- app.py: valid_tickers, the unique portfolio tickers present as keys of
-- engine.market_data.
def valid_tickers {S : Type} (st : QuantEngineState S) : List String :=
  (uniqueFirst (yf_ticker_column st.portfolio)).filter
    (fun t => (assocGet st.market_data t).isSome)

-- =====================================================================
-- Concrete inputs used by counterexamples and witnesses.
-- =====================================================================

-- A one-row CSV with a single valid symbol.
def dfAaplOnly : CsvDf :=
  { columns := ["Symbol"], rows := [[("Symbol", Cell.s "AAPL")]] }

-- A CSV that parses and has the Symbol column but yields zero valid rows.
def dfBlankSymbolRow : CsvDf :=
  { columns := ["Symbol"], rows := [[("Symbol", Cell.s "")]] }

-- A CSV whose only row has quantity zero.
def dfQtyZero : CsvDf :=
  { columns := ["Symbol", "Quantity"],
    rows := [[("Symbol", Cell.s "AAPL"), ("Quantity", Cell.s "0")]] }

-- A CSV without a Symbol column.
def dfNoSymbol : CsvDf :=
  { columns := ["Name"], rows := [] }

-- The two-row CSV of the end-to-end scenario: AAPL with exchange US,
-- quantity 5 and book value 500, plus a row with an empty Symbol cell
-- (an empty CSV field reads as NaN).
def dfTwoRow : CsvDf :=
  { columns := ["Symbol", "Exchange", "Quantity", "Book Value"],
    rows := [
      [("Symbol", Cell.s "AAPL"), ("Exchange", Cell.s "US"),
       ("Quantity", Cell.s "5"), ("Book Value", Cell.s "500")],
      [("Symbol", Cell.na), ("Exchange", Cell.s "US"),
       ("Quantity", Cell.s "1"), ("Book Value", Cell.s "100")]] }

-- The Holding record the loader produces for a plain AAPL row.
def recAAPL : List (String × String) :=
  [("Symbol", "AAPL"), ("YF_Ticker", "AAPL"), ("Name", "Unknown")]

-- An indicator valuation whose first indicator expression raises.
def indFirstRaises : Indicators :=
  { curr_price := Except.error (),
    prev_price := Except.ok 0,
    sma20 := Except.ok 0,
    sma50 := Except.ok 0,
    sma200 := Except.ok none,
    rsi := Except.ok 0,
    macd_hist := Except.ok 0,
    prev_macd_hist := Except.ok 0,
    high_20 := Except.ok 0,
    low_20 := Except.ok 0,
    atr := Except.ok 0,
    ret_20 := Except.ok 0,
    vol_ma := Except.ok 0,
    vol_last := Except.ok 0,
    bb_lower := Except.ok 0 }

-- A concrete indicator snapshot for the market analysis (ADX above 25).
def nasdaqSample : NasdaqInputs :=
  { current_price := 100, sma20 := 90, sma50 := 95, sma200 := 80,
    adx := 30, macd_hist := 1, curr_vxn := 20, vxn_ma20 := 19,
    ath := 120, q_pct := 0.01, qe_pct := 0.02, mfi := 60,
    tnx_val := 4, rsi := 55 }

-- =====================================================================
-- Theorems.
-- =====================================================================

-- Helper: whatever record the loop body retains is the three-field dict
-- literal, and its resolved ticker passed the nan filter.
theorem process_row_shape (r : List (String × Cell)) (rec : List (String × String))
    (h : process_row r = some rec) :
    ∃ symbol yf name,
      rec = [("Symbol", symbol), ("YF_Ticker", yf), ("Name", name)] ∧
      strContains (pyLower yf) "nan" = false := by
  simp only [process_row] at h
  split at h
  · exact absurd h (by simp)
  · split at h
    · exact absurd h (by simp)
    · split at h
      · exact absurd h (by simp)
      · rename_i hnan
        refine ⟨_, _, _, (Option.some.inj h).symm, ?_⟩
        simpa using hnan

-- Helper: the success branch of the loader produces exactly the
-- filterMap of the loop body over the rows.
theorem load_portfolio_ok_table (df : CsvDf)
    (pf : List (List (String × String)))
    (h : (load_portfolio (Except.ok df)).2 = some pf) :
    pf = (strip_columns df).rows.filterMap process_row := by
  simp only [load_portfolio] at h
  split at h
  · exact (Option.some.inj h).symm
  · exact absurd h (by simp)

/-- Claim C1 (code_bug evidence): the compatibility stub calculate_strategy
ignores the preset name and the parameter set, so SMA Cross and
SMA Reversal yield the identical chart result for every ticker, and
get_signal_status answers the constant string Pro Mode instead of any
per-bar signal code. -/
theorem calculate_strategy_preset_independent :
    ∀ (S : Type) (tl : TaLibChart S)
      (download : String → Option (List (String × S)))
      (ticker : String) (p1 p2 : List (String × ℚ)),
      calculate_strategy tl download ticker "SMA Cross" p1 =
        calculate_strategy tl download ticker "SMA Reversal" p2 ∧
      (∀ d : Option (List (String × S)), get_signal_status d = "Pro Mode") :=
  fun _ _ _ _ _ _ => ⟨rfl, fun _ => rfl⟩

/-- Claim C2 counterexample: a CSV that parses and has the Symbol column
but yields zero valid rows still returns success, with an empty table. -/
theorem load_portfolio_zero_rows_success_cx :
    (load_portfolio (Except.ok dfBlankSymbolRow)).1.1 = true ∧
    (load_portfolio (Except.ok dfBlankSymbolRow)).2 = some [] :=
  ⟨by decide, by decide⟩

/-- Claim C2 (amended): load_portfolio reports success exactly when the
input parses and the stripped column labels contain Symbol, regardless of
how many valid rows remain; failure arises only from a missing Symbol
column or a parse exception. -/
theorem load_portfolio_success_condition :
    ∀ df : CsvDf,
      ("Symbol" ∈ (strip_columns df).columns →
        (load_portfolio (Except.ok df)).1.1 = true) ∧
      (¬ "Symbol" ∈ (strip_columns df).columns →
        (load_portfolio (Except.ok df)).1.1 = false) ∧
      (∀ e : String, (load_portfolio (Except.error e)).1.1 = false) := by
  intro df
  refine ⟨?_, ?_, fun e => rfl⟩
  · intro h
    simp [load_portfolio, h]
  · intro h
    simp [load_portfolio, h]

/-- Witness for load_portfolio_success_condition at concrete inputs. -/
theorem load_portfolio_success_condition_witness :
    (load_portfolio (Except.ok dfAaplOnly)).1.1 = true ∧
    (load_portfolio (Except.ok dfNoSymbol)).1.1 = false :=
  ⟨(load_portfolio_success_condition dfAaplOnly).1 (by decide),
   (load_portfolio_success_condition dfNoSymbol).2.1 (by decide)⟩

/-- Claim C3 counterexample: the row with quantity zero is retained, so
non-positive quantity does not exclude a row. -/
theorem load_portfolio_qty_zero_retained_cx :
    (load_portfolio (Except.ok dfQtyZero)).2 = some [recAAPL] := by decide

/-- Claim C3 (amended): the loader parses the quantity but neither gates
on it nor stores it; every retained record carries exactly the fields
Symbol, YF_Ticker and Name, so rows are kept regardless of quantity. -/
theorem load_portfolio_record_fields :
    ∀ (input : Except String CsvDf) (pf : List (List (String × String)))
      (rec : List (String × String)),
      (load_portfolio input).2 = some pf → rec ∈ pf →
      rec.map Prod.fst = ["Symbol", "YF_Ticker", "Name"] := by
  intro input pf rec hload hmem
  cases input with
  | error e => simp [load_portfolio] at hload
  | ok df =>
    rw [load_portfolio_ok_table df pf hload] at hmem
    obtain ⟨r, _, hpr⟩ := List.mem_filterMap.mp hmem
    obtain ⟨symbol, yf, name, hrec, _⟩ := process_row_shape r rec hpr
    subst hrec
    rfl

/-- Witness for load_portfolio_record_fields at a concrete input. -/
theorem load_portfolio_record_fields_witness :
    recAAPL.map Prod.fst = ["Symbol", "YF_Ticker", "Name"] :=
  load_portfolio_record_fields (Except.ok dfQtyZero) [recAAPL] recAAPL
    (by decide) (List.mem_singleton.mpr rfl)

/-- Claim C4 counterexample: the two-row scenario yields one record whose
fields are only Symbol, YF_Ticker and Name; no attribute holds an average
cost of one hundred (there is no cost attribute at all). -/
theorem load_portfolio_two_row_no_cost_cx :
    (load_portfolio (Except.ok dfTwoRow)).2 = some [recAAPL] ∧
    recAAPL.all
      (fun kv => !(kv.2 == "100.0") && !(kv.2 == "100") && !(kv.2 == "100.00")) =
      true :=
  ⟨by decide, by decide⟩

/-- Claim C4 (amended): loading the two-row CSV yields success with the
single record Symbol AAPL, YF_Ticker AAPL, Name Unknown; the loader of
this revision derives no cost basis. -/
theorem load_portfolio_two_row_result :
    (load_portfolio (Except.ok dfTwoRow)).1 = (true, "✅ 已加载 1 个持仓") ∧
    (load_portfolio (Except.ok dfTwoRow)).2 = some [recAAPL] :=
  ⟨by decide, by decide⟩

/-- Claim C5 counterexample: with a successful download of one hundred
bars and a first indicator expression that raises, diagnose_stock_pro
propagates the error instead of degrading to a sentinel result. -/
theorem diagnose_indicator_error_propagates_cx :
    diagnose_stock_pro (Except.ok { len := 100 }) indFirstRaises none =
      Except.error () := rfl

/-- Claim C5 (amended): exceptions raised while fetching the data (or the
emptiness and length checks) degrade the evaluation to the None result,
but an exception raised during indicator computation propagates out of
diagnose_stock_pro uncaught. -/
theorem diagnose_exception_policy :
    ∀ (ind : Indicators) (mc : Option MacroCacheData),
      (∀ e : Unit, diagnose_stock_pro (Except.error e) ind mc = Except.ok none) ∧
      (∀ df : FetchedDf, 60 ≤ df.len → ind.curr_price = Except.error () →
        diagnose_stock_pro (Except.ok df) ind mc = Except.error ()) := by
  intro ind mc
  refine ⟨fun e => rfl, fun df h60 herr => ?_⟩
  have h0 : ¬ df.len = 0 := by omega
  have h1 : ¬ df.len < 60 := by omega
  simp only [diagnose_stock_pro, if_neg h0, if_neg h1, herr]
  rfl

/-- Witness for diagnose_exception_policy at concrete inputs. -/
theorem diagnose_exception_policy_witness :
    diagnose_stock_pro (Except.error ()) indFirstRaises none = Except.ok none ∧
    diagnose_stock_pro (Except.ok { len := 61 }) indFirstRaises none =
      Except.error () :=
  ⟨(diagnose_exception_policy indFirstRaises none).1 (),
   (diagnose_exception_policy indFirstRaises none).2 { len := 61 } (by decide) rfl⟩

/-- Claim C6: the symbol mapper is a pure function of its four inputs,
and maps symbol GOLD with display name Gold Bullion (no BARRICK in the
name) to the commodity override GC=F rather than the literal GOLD. -/
theorem map_symbol_pure_and_gold_override :
    (∀ s e n c : String, map_symbol s e n c = map_symbol s e n c) ∧
    map_symbol "GOLD" "" "Gold Bullion" "" = "GC=F" :=
  ⟨fun _ _ _ _ => rfl, by decide⟩

/-- Claim C7: no record of a loaded portfolio table has a resolved
YF_Ticker containing the substring nan case-insensitively: the loop drops
any such row before appending. -/
theorem portfolio_no_nan_ticker :
    ∀ (input : Except String CsvDf) (pf : List (List (String × String)))
      (rec : List (String × String)) (t : String),
      (load_portfolio input).2 = some pf → rec ∈ pf →
      assocGet rec "YF_Ticker" = some t →
      strContains (pyLower t) "nan" = false := by
  intro input pf rec t hload hmem hticker
  cases input with
  | error e => simp [load_portfolio] at hload
  | ok df =>
    rw [load_portfolio_ok_table df pf hload] at hmem
    obtain ⟨r, _, hpr⟩ := List.mem_filterMap.mp hmem
    obtain ⟨symbol, yf, name, hrec, hnan⟩ := process_row_shape r rec hpr
    subst hrec
    have hval : assocGet
        [("Symbol", symbol), ("YF_Ticker", yf), ("Name", name)] "YF_Ticker" =
        some yf := rfl
    rw [hval] at hticker
    obtain rfl := Option.some.inj hticker
    exact hnan

/-- Witness for portfolio_no_nan_ticker at a concrete input. -/
theorem portfolio_no_nan_ticker_witness :
    strContains (pyLower "AAPL") "nan" = false :=
  portfolio_no_nan_ticker (Except.ok dfAaplOnly) [recAAPL] recAAPL "AAPL"
    (by decide) (List.mem_singleton.mpr rfl) (by decide)

/-- Claim C8: get_active_strategy returns the locked preset when the
strategy map has an entry for the ticker, and the caller-supplied default
otherwise. -/
theorem get_active_strategy_lookup :
    ∀ (m : List (String × String)) (ticker d : String),
      (∀ v, assocGet m ticker = some v → get_active_strategy m ticker d = v) ∧
      (assocGet m ticker = none → get_active_strategy m ticker d = d) := by
  intro m ticker d
  constructor
  · intro v hv
    simp [get_active_strategy, hv]
  · intro hn
    simp [get_active_strategy, hn]

/-- Witness for get_active_strategy_lookup at concrete inputs. -/
theorem get_active_strategy_lookup_witness :
    get_active_strategy [("AAPL", "RSI")] "AAPL" "SMA Cross" = "RSI" ∧
    get_active_strategy [("AAPL", "RSI")] "MSFT" "SMA Cross" = "SMA Cross" :=
  ⟨(get_active_strategy_lookup [("AAPL", "RSI")] "AAPL" "SMA Cross").1 "RSI"
      (by decide),
   (get_active_strategy_lookup [("AAPL", "RSI")] "MSFT" "SMA Cross").2
      (by decide)⟩

-- Helper: no single method call writes market_data.
theorem market_data_step_invariant {S : Type} (st : QuantEngineState S)
    (op : EngineOp S) (h : st.market_data = []) :
    (engine_step st op).market_data = [] := by
  cases op with
  | load_portfolio_op input =>
    cases hp : (load_portfolio input).2 with
    | none => simpa [engine_step, hp] using h
    | some pf => simpa [engine_step, hp] using h
  | fetch_macro_context_op fetched =>
    cases fetched with
    | none => simpa [engine_step] using h
    | some m => simpa [engine_step] using h
  | save_strategy_config_op t s => simpa [engine_step] using h
  | analyze_nasdaq_pro_op fetched => exact h
  | diagnose_stock_pro_op ticker fetch ind => exact h
  | get_chart_data_op tl download ticker => exact h
  | calculate_strategy_op tl download ticker strategy params => exact h
  | get_signal_status_op df => exact h
  | load_strategy_config_op => exact h
  | get_active_strategy_op ticker d => exact h
  | map_symbol_op s e n c => exact h
  | send_telegram_message_op msg => exact h

-- Helper: the invariant is preserved along any call sequence.
theorem market_data_foldl_invariant {S : Type} :
    ∀ (ops : List (EngineOp S)) (st : QuantEngineState S),
      st.market_data = [] → (ops.foldl engine_step st).market_data = [] := by
  intro ops
  induction ops with
  | nil => intro st h; exact h
  | cons op t ih =>
    intro st h
    simpa only [List.foldl_cons] using ih _ (market_data_step_invariant st op h)

/-- Claim C9: no engine operation ever writes market_data; along any call
sequence it stays the empty map it is at construction, hence the list of
valid tickers computed by the app is always empty. -/
theorem market_data_always_empty :
    ∀ (S : Type) (config : List (String × String)) (ops : List (EngineOp S)),
      (engine_run S config ops).market_data = [] ∧
      valid_tickers (engine_run S config ops) = [] := by
  intro S config ops
  have h : (engine_run S config ops).market_data = [] :=
    market_data_foldl_invariant ops (engine_init S config) rfl
  refine ⟨h, ?_⟩
  unfold valid_tickers
  rw [h]
  simp [assocGet]

/-- Claim C10: the trend strength of any result of analyze_nasdaq_pro is
either weak or strong; the extremely-strong branch is dead because the
test against forty runs only when the test against twenty-five failed. -/
theorem analyze_trend_str_two_values :
    ∀ (fetch : Except Unit NasdaqInputs) (r : NasdaqResult),
      analyze_nasdaq_pro fetch = some r →
      r.trend_str = "弱" ∨ r.trend_str = "强" := by
  intro fetch r h
  cases fetch with
  | error e => simp [analyze_nasdaq_pro] at h
  | ok i =>
    simp only [analyze_nasdaq_pro, Option.some.injEq] at h
    subst h
    have hcore : (analyze_nasdaq_core i).trend_str = nasdaq_trend_str i.adx := rfl
    rw [hcore]
    unfold nasdaq_trend_str
    split_ifs with h1 h2
    · right; rfl
    · exact absurd (lt_trans (by norm_num) h2) h1
    · left; rfl

/-- Witness for analyze_trend_str_two_values at a concrete input. -/
theorem analyze_trend_str_two_values_witness :
    (analyze_nasdaq_core nasdaqSample).trend_str = "弱" ∨
    (analyze_nasdaq_core nasdaqSample).trend_str = "强" :=
  analyze_trend_str_two_values (Except.ok nasdaqSample)
    (analyze_nasdaq_core nasdaqSample) rfl

end QuantSys
